import Mathlib

/-!
Shallow embedding of the quasar program core (src/src/processor.rs) in Lean 4.

Account addresses (`Pubkey`) are modelled as natural numbers; the `I80F48`
signed fixed-point type of the `fixed` crate is modelled by its raw integer
representation at scale `2^48`.  Handlers are pure state-transition functions
on the persistent `QuasarGroup` record; cross-module invocations (CPIs) are
mediated by an environment that maps each built instruction to its result, and
each handler additionally returns the ordered trace of instructions it
dispatched.  A Rust `panic!` / out-of-bounds index is a distinct `panic`
outcome, separate from returned (typed) errors.
-/

namespace Quasar

/-- Account address.  Modelled as a natural number; `0` is the all-zero pubkey
used as the empty-slot sentinel. -/
abbrev Pubkey := Nat

/-- The `fixed` crate's `I80F48` signed fixed-point number, represented by its
raw twos-complement integer value at scale `2 ^ 48` (48 fractional bits,
values range over `[-(2^127), 2^127)` in raw units). -/
structure I80F48 where
  raw : Int
  deriving DecidableEq, Repr

/-- Raw-value bound of `I80F48`: representable raw values are in
`[-(2^127), 2^127)`. -/
def I80F48.inRange (r : Int) : Prop := -(2 ^ 127) ≤ r ∧ r < 2 ^ 127

instance (r : Int) : Decidable (I80F48.inRange r) := by
  unfold I80F48.inRange; infer_instance

/-- `I80F48::from_num` on an integer: shift into fixed-point; out-of-range
values panic in Rust, modelled as `none`. -/
def I80F48.fromNum (n : Int) : Option I80F48 :=
  if I80F48.inRange (n * 2 ^ 48) then some ⟨n * 2 ^ 48⟩ else none

/-- `I80F48::checked_div`: `none` on division by zero or overflow.  The
quotient is truncated toward zero, as in the `fixed` crate. -/
def I80F48.checkedDiv (a b : I80F48) : Option I80F48 :=
  if b.raw = 0 then none
  else
    let q := Int.tdiv (a.raw * 2 ^ 48) b.raw
    if I80F48.inRange q then some ⟨q⟩ else none

/-- `I80F48::checked_mul`: the full product is shifted right arithmetically by
48 bits (floor division by `2 ^ 48`); `none` on overflow. -/
def I80F48.checkedMul (a b : I80F48) : Option I80F48 :=
  let p := Int.fdiv (a.raw * b.raw) (2 ^ 48)
  if I80F48.inRange p then some ⟨p⟩ else none

/-- An `i32` checked result: `none` models `checked_add`/`checked_sub`
overflow (whose `unwrap` panics). -/
def i32Checked (n : Int) : Option Int :=
  if -(2 ^ 31) ≤ n ∧ n < 2 ^ 31 then some n else none

/-- Record kind tag of a persistent account (state.rs `DataType`).
Modelled from the spec: the metadata carries a record-kind tag. -/
inductive DataType where
  | quasarGroup
  | stubOracle
  deriving DecidableEq, Repr

/-- Persistent-record metadata (state.rs `MetaData`).
Modelled from the spec: record kind tag, schema version, initialized flag. -/
structure MetaData where
  data_type : DataType
  version : Nat
  is_initialized : Bool
  deriving DecidableEq, Repr

/-- `MetaData::new`. -/
def MetaData.new (dt : DataType) (v : Nat) (init : Bool) : MetaData :=
  ⟨dt, v, init⟩

/-- One base-token registry slot (state.rs `BaseToken`): underlying asset
mint, decimal precision, bound oracle.  The 7 padding bytes of the Rust
struct carry no information and are omitted. -/
structure BaseToken where
  mint : Pubkey
  decimals : Nat
  oracle : Pubkey
  deriving DecidableEq, Repr

/-- Modelled from the spec: a slot is empty iff it is all zero
(zero-as-empty sentinel, tested through the mint field). -/
def BaseToken.is_empty (b : BaseToken) : Bool := b.mint == 0

/-- One leverage-token registry slot (state.rs `LeverageToken`). -/
structure LeverageToken where
  mint : Pubkey
  base_token_mint : Pubkey
  target_leverage : I80F48
  mango_account : Pubkey
  mango_perp_market : Pubkey
  deriving DecidableEq, Repr

/-- Modelled from the spec: zero-as-empty sentinel for leverage-token slots. -/
def LeverageToken.is_empty (t : LeverageToken) : Bool := t.mint == 0

/-- The root persistent record (state.rs `QuasarGroup`).  The two fixed
capacity slot arrays are modelled as lists whose length is the array capacity
(the spec's `MAX_BASE` / `MAX_LEV`); `num_base_tokens` / `num_leverage_tokens`
count the occupied prefix. -/
structure QuasarGroup where
  meta_data : MetaData
  signer_nonce : Nat
  signer_key : Pubkey
  admin_key : Pubkey
  mango_program_id : Pubkey
  num_base_tokens : Nat
  base_tokens : List BaseToken
  num_leverage_tokens : Nat
  leverage_tokens : List LeverageToken
  deriving DecidableEq, Repr

/-- First index in a list whose element satisfies the test, in the style of
Rust `iter().position(..)`. -/
def positionOf {α : Type} (p : α → Bool) : List α → Option Nat
  | [] => none
  | a :: l => if p a then some 0 else (positionOf p l).map (· + 1)

/-- Modelled from the spec: state.rs lookup of a base token by its asset mint
identity, scanning the registry slots in order. -/
def QuasarGroup.find_base_token_index (g : QuasarGroup) (mint : Pubkey) : Option Nat :=
  positionOf (fun bt => bt.mint == mint) g.base_tokens

/-- Modelled from the spec: state.rs lookup of a leverage token by its
`(base_token, target_leverage)` pair, scanning the registry slots in order. -/
def QuasarGroup.find_leverage_token_index (g : QuasarGroup) (base_mint : Pubkey)
    (target_leverage : I80F48) : Option Nat :=
  positionOf
    (fun t => t.base_token_mint == base_mint && t.target_leverage == target_leverage)
    g.leverage_tokens

/-- The fields of `spl_token::state::Mint` read by this core. -/
structure MintData where
  decimals : Nat
  is_initialized : Bool
  deriving DecidableEq, Repr

/-- The fields of a Pyth `Price` account read by `read_oracle`:
`agg.price : i64` and `expo : i32`. -/
structure PythPriceData where
  price : Int
  expo : Int
  deriving DecidableEq, Repr

/-- oracle.rs `StubOracle` (modelled from the spec: a stub feed stores a magic
tag and a raw price already in the target fixed-point scale). -/
structure StubOracleData where
  magic : Nat
  price : I80F48
  deriving DecidableEq, Repr

/-- Decoded content of an account's data, as relevant to this core: an SPL
mint, a Pyth price feed, a stub oracle, or anything else (`raw`). -/
inductive AccountData where
  | raw
  | mint (m : MintData)
  | pyth (p : PythPriceData)
  | stub (s : StubOracleData)
  deriving DecidableEq, Repr

/-- An `AccountInfo` as seen by a handler: address, owner, signer flag,
balance and decoded data. -/
structure AccountInfo where
  key : Pubkey
  owner : Pubkey
  is_signer : Bool
  lamports : Nat
  data : AccountData
  deriving DecidableEq, Repr

/-- oracle.rs `OracleType`. -/
inductive OracleType where
  | pyth
  | stub
  | unknown
  deriving DecidableEq, Repr

/-- The stub-oracle magic tag written by `add_base_token`
(`0x6F676E4D`). -/
def STUB_MAGIC : Nat := 0x6F676E4D

/-- Modelled from the spec: oracle.rs `determine_oracle_type` classifies a
price-source account as an external (Pyth) feed, a stub feed (magic tag
present), or unknown. -/
def determine_oracle_type (acc : AccountInfo) : OracleType :=
  match acc.data with
  | .pyth _ => .pyth
  | .stub s => if s.magic == STUB_MAGIC then .stub else .unknown
  | _ => .unknown

/-- error.rs `QuasarErrorCode` variants used by processor.rs. -/
inductive QuasarErrorCode where
  | Default
  | InvalidGroupOwner
  | GroupNotRentExempt
  | InvalidSignerKey
  | SignerNecessary
  | InvalidAdminKey
  | InvalidAccount
  deriving DecidableEq, Repr

/-- A returned failure: a typed quasar error, a generic `ProgramError`
(e.g. from `Mint::unpack` or `gen_signer_key`), or an error propagated
unchanged from a cross-module invocation. -/
inductive PErr where
  | quasar (c : QuasarErrorCode)
  | program
  | cpi (e : Nat)
  deriving DecidableEq, Repr

/-- Result of one handler call: success, a returned error, or a Rust panic
(process abort, e.g. out-of-bounds slot index or `panic!`). -/
inductive Outcome where
  | ok
  | err (e : PErr)
  | panic
  deriving DecidableEq, Repr

/-- An `AccountMeta` of a built cross-module instruction. -/
structure CpiAccountMeta where
  pubkey : Pubkey
  is_signer : Bool
  is_writable : Bool
  deriving DecidableEq, Repr

/-- The data payload of a cross-module instruction built by this core. -/
inductive CpiData where
  | initMangoAccount
  | deposit (quantity : Nat)
  | createAccount (lamports : Nat) (space : Nat) (owner : Pubkey)
  | initializeMint (decimals : Nat) (mint_authority : Pubkey)
      (freeze_authority : Option Pubkey)
  deriving DecidableEq, Repr

/-- Seed material supplied to `invoke` / `invoke_signed`: no signing seeds
(plain `invoke`), one signer with an empty seed list (`&[&[]]`), or the
derived-authority seeds recomputed from the group address and nonce
(`gen_signer_seeds`). -/
inductive CpiSeeds where
  | noSeeds
  | emptySigner
  | derived (group : Pubkey) (nonce : Nat)
  deriving DecidableEq, Repr

/-- One dispatched cross-module instruction. -/
structure CpiCall where
  program_id : Pubkey
  data : CpiData
  accounts : List CpiAccountMeta
  seeds : CpiSeeds
  deriving DecidableEq, Repr

/-- The external world a handler call runs against: the rent sysvar's
exemption test and the outcome of each dispatched cross-module invocation
(`none` is success, `some e` the collaborator's error, propagated
unchanged). -/
structure Env where
  rentIsExempt : Nat → Nat → Bool
  cpiResult : CpiCall → Option PErr

/-- Result of a handler: its outcome, the group record afterwards, and the
ordered trace of cross-module instructions it dispatched. -/
structure HandlerResult where
  outcome : Outcome
  group : QuasarGroup
  cpis : List CpiCall
  deriving DecidableEq, Repr

theorem positionOf_eq_none {α : Type} (p : α → Bool) (l : List α)
    (h : positionOf p l = none) : ∀ x ∈ l, p x = false := by
  induction l with
  | nil => intro x hx; cases hx
  | cons a t ih =>
    intro x hx
    unfold positionOf at h
    by_cases hpa : p a
    · simp [hpa] at h
    · cases hx with
      | head => exact Bool.eq_false_iff.mpr hpa
      | tail _ hmem =>
        apply ih _ x hmem
        cases hpos : positionOf p t with
        | none => rfl
        | some k => rw [hpos] at h; simp [hpa] at h

/-- The well-known system-program address (`solana_program::system_program::id()`),
modelled as a distinguished numeral. -/
def SYSTEM_PROGRAM_ID : Pubkey := 901

/-- The well-known SPL token-program address (`spl_token::id()`). -/
def SPL_TOKEN_ID : Pubkey := 902

/-- The well-known rent-sysvar address (`solana_program::sysvar::rent::id()`). -/
def RENT_SYSVAR_ID : Pubkey := 903

/-- `spl_token::state::Mint::LEN`. -/
def MINT_LEN : Nat := 82

/-- Modelled from the spec: state.rs `LEVERGAE_TOKEN_DECIMALS`, the fixed
decimal precision of newly created leverage-token mints (the exact value is
not visible in the available sources; no claim depends on it). -/
def LEVERGAE_TOKEN_DECIMALS : Nat := 6

/-- Modelled from the spec: `size_of::<QuasarGroup>()`, the fixed storage size
of the group record; its exact value is immaterial here because the rent test
itself is part of the environment. -/
def QUASAR_GROUP_SIZE : Nat := 1000

/-- Modelled from the spec: the storage size of a stub-oracle account. -/
def STUB_ORACLE_SIZE : Nat := 24

/-- `Rent::default().minimum_balance(space)` with Solana's default rent
parameters: `(128 + space) * lamports_per_byte_year * exemption_threshold`
with 3480 lamports per byte-year and a threshold of 2 years. -/
def defaultMinimumBalance (space : Nat) : Nat := (128 + space) * 3480 * 2

/-- Modelled from the spec: utils.rs `gen_signer_key`, the pure deterministic
derivation of the no-private-key authority address from the nonce, the group
address and this program's address (injective via `Nat.pair`; the offset keeps
derived addresses out of the small-numeral range used for ordinary account
addresses).  The Rust function is fallible, hence the `Option`. -/
def gen_signer_key (nonce : Nat) (group_key : Pubkey) (program_id : Pubkey) :
    Option Pubkey :=
  some (100000 + Nat.pair nonce (Nat.pair group_key program_id))

/-- Modelled from the spec: state.rs `QuasarGroup::load_(mut_)checked` —
loading the group record validates the account owner and the record
metadata (initialized flag and record-kind tag).  Returns the failure, if
any. -/
def quasar_group_load_checked (g : QuasarGroup) (acc : AccountInfo)
    (program_id : Pubkey) : Option PErr :=
  if acc.owner ≠ program_id then some (.quasar .InvalidGroupOwner)
  else if !g.meta_data.is_initialized then some (.quasar .Default)
  else if g.meta_data.data_type ≠ DataType.quasarGroup then some (.quasar .Default)
  else none

/-- `Mint::unpack` on an account's data: fails unless the data is a mint
marked initialized. -/
def unpack_mint (acc : AccountInfo) : Option MintData :=
  match acc.data with
  | .mint m => if m.is_initialized then some m else none
  | _ => none

/-- Modelled from the spec: `StubOracle::load_and_init` — the stub-feed
account must be a fresh account owned by this program and rent-exempt at the
stub-oracle size; it is then initialized in place (the oracle account itself
is outside the group record, so only the outcome is tracked). -/
def stub_oracle_load_and_init (program_id : Pubkey) (acc : AccountInfo)
    (env : Env) : Option PErr :=
  if acc.owner ≠ program_id then some (.quasar .Default)
  else if !env.rentIsExempt acc.lamports STUB_ORACLE_SIZE then
    some (.quasar .Default)
  else if acc.data ≠ AccountData.raw then some (.quasar .Default)
  else none

/-- processor.rs `create_account`: checks the system-program account, then
dispatches a system `create_account` instruction for a rent-exempt account of
`space` bytes owned by `owner_ai`, funded by `signer_ai`.  Returns the
failure (if any) and the dispatched-instruction trace. -/
def create_account (env : Env) (signer_ai new_account_ai : AccountInfo)
    (space : Nat) (owner_ai system_program_ai : AccountInfo) :
    Option PErr × List CpiCall :=
  if system_program_ai.key ≠ SYSTEM_PROGRAM_ID then
    (some (.quasar .InvalidAccount), [])
  else
    let inv : CpiCall :=
      { program_id := SYSTEM_PROGRAM_ID
        data := .createAccount (defaultMinimumBalance space) space owner_ai.key
        accounts := [⟨signer_ai.key, true, true⟩, ⟨new_account_ai.key, true, true⟩]
        seeds := .noSeeds }
    (env.cpiResult inv, [inv])

/-- processor.rs `init_mango_account`: builds the margin module's
account-opening instruction and dispatches it signed with the supplied
seeds. -/
def init_mango_account (env : Env)
    (mango_program_ai mango_group_ai mango_account_ai owner_ai : AccountInfo)
    (seeds : CpiSeeds) : Option PErr × List CpiCall :=
  let inv : CpiCall :=
    { program_id := mango_program_ai.key
      data := .initMangoAccount
      accounts := [⟨mango_group_ai.key, false, false⟩,
        ⟨mango_account_ai.key, false, true⟩, ⟨owner_ai.key, true, false⟩]
      seeds := seeds }
  (env.cpiResult inv, [inv])

/-- processor.rs `deposit_to_mango_account`: builds the margin module's
`Deposit { quantity }` instruction over its nine accounts and dispatches it
signed with the supplied seeds. -/
def deposit_to_mango_account (env : Env)
    (mango_program_ai mango_group_ai mango_account_ai owner_ai mango_cache_ai
      root_bank_ai node_bank_ai vault_ai token_program_ai
      owner_token_account_ai : AccountInfo)
    (seeds : CpiSeeds) (quantity : Nat) : Option PErr × List CpiCall :=
  let inv : CpiCall :=
    { program_id := mango_program_ai.key
      data := .deposit quantity
      accounts := [⟨mango_group_ai.key, false, false⟩,
        ⟨mango_account_ai.key, false, true⟩, ⟨owner_ai.key, true, false⟩,
        ⟨mango_cache_ai.key, false, false⟩, ⟨root_bank_ai.key, false, false⟩,
        ⟨node_bank_ai.key, false, true⟩, ⟨vault_ai.key, false, true⟩,
        ⟨token_program_ai.key, false, false⟩,
        ⟨owner_token_account_ai.key, false, true⟩]
      seeds := seeds }
  (env.cpiResult inv, [inv])

/-- processor.rs `create_and_initialize_mint_account`: validates the
token-program, system-program and rent accounts against their well-known
addresses, creates the mint account (funded by `signer_ai`, owned by the
token program), then dispatches `initialize_mint` with the derived authority
as both mint and freeze authority. -/
def create_and_initialize_mint_account (env : Env)
    (signer_ai mint_ai authority_ai token_program_ai system_program_ai
      rent_program_ai : AccountInfo)
    (seeds : CpiSeeds) (decimals : Nat) : Option PErr × List CpiCall :=
  if token_program_ai.key ≠ SPL_TOKEN_ID then (some (.quasar .InvalidAccount), [])
  else if system_program_ai.key ≠ SYSTEM_PROGRAM_ID then
    (some (.quasar .InvalidAccount), [])
  else if rent_program_ai.key ≠ RENT_SYSVAR_ID then
    (some (.quasar .InvalidAccount), [])
  else
    match create_account env signer_ai mint_ai MINT_LEN token_program_ai
        system_program_ai with
    | (some e, t) => (some e, t)
    | (none, t) =>
      let inv : CpiCall :=
        { program_id := token_program_ai.key
          data := .initializeMint decimals authority_ai.key (some authority_ai.key)
          accounts := [⟨mint_ai.key, false, true⟩, ⟨RENT_SYSVAR_ID, false, false⟩]
          seeds := seeds }
      (env.cpiResult inv, t ++ [inv])

/-- The four accounts of `init_quasar_group`. -/
structure InitGroupAccounts where
  quasar_group : AccountInfo
  signer : AccountInfo
  admin : AccountInfo
  mango_program : AccountInfo
  deriving DecidableEq, Repr

/-- processor.rs `Processor::init_quasar_group`.  The group record it operates
on is the content `g` of the group account.  Note the source order: the
signer fields and the margin-module id are written before the admin
co-signature is checked. -/
def init_quasar_group (program_id : Pubkey) (g : QuasarGroup)
    (a : InitGroupAccounts) (signer_nonce : Nat) (env : Env) : HandlerResult :=
  if a.quasar_group.owner ≠ program_id then
    ⟨.err (.quasar .InvalidGroupOwner), g, []⟩
  else if !env.rentIsExempt a.quasar_group.lamports QUASAR_GROUP_SIZE then
    ⟨.err (.quasar .GroupNotRentExempt), g, []⟩
  else if g.meta_data.is_initialized then ⟨.err (.quasar .Default), g, []⟩
  else
    match gen_signer_key signer_nonce a.quasar_group.key program_id with
    | none => ⟨.err .program, g, []⟩
    | some sk =>
      if sk ≠ a.signer.key then ⟨.err (.quasar .InvalidSignerKey), g, []⟩
      else
        let g1 := { g with signer_nonce := signer_nonce,
                           signer_key := a.signer.key,
                           mango_program_id := a.mango_program.key }
        if !a.admin.is_signer then ⟨.err (.quasar .Default), g1, []⟩
        else
          ⟨.ok, { g1 with admin_key := a.admin.key,
                          meta_data := MetaData.new .quasarGroup 0 true }, []⟩

/-- The four accounts of `add_base_token`. -/
structure AddBaseTokenAccounts where
  quasar_group : AccountInfo
  mint : AccountInfo
  oracle : AccountInfo
  admin : AccountInfo
  deriving DecidableEq, Repr

/-- processor.rs `Processor::add_base_token`.  An out-of-range slot index
(`base_tokens[num_base_tokens]` with a full registry) is a Rust panic. -/
def add_base_token (program_id : Pubkey) (g : QuasarGroup)
    (a : AddBaseTokenAccounts) (env : Env) : HandlerResult :=
  match quasar_group_load_checked g a.quasar_group program_id with
  | some e => ⟨.err e, g, []⟩
  | none =>
    if !a.admin.is_signer then ⟨.err (.quasar .InvalidSignerKey), g, []⟩
    else if a.admin.key ≠ g.admin_key then ⟨.err (.quasar .InvalidSignerKey), g, []⟩
    else if (g.find_base_token_index a.mint.key).isSome then
      ⟨.err (.quasar .Default), g, []⟩
    else
      let oracleRes : Option PErr :=
        match determine_oracle_type a.oracle with
        | .pyth => none
        | .stub => stub_oracle_load_and_init program_id a.oracle env
        | .unknown => stub_oracle_load_and_init program_id a.oracle env
      match oracleRes with
      | some e => ⟨.err e, g, []⟩
      | none =>
        let base_token_index := g.num_base_tokens
        match g.base_tokens[base_token_index]? with
        | none => ⟨.panic, g, []⟩
        | some slot =>
          if !slot.is_empty then ⟨.err (.quasar .Default), g, []⟩
          else
            match unpack_mint a.mint with
            | none => ⟨.err .program, g, []⟩
            | some m =>
              ⟨.ok,
               { g with
                 base_tokens := g.base_tokens.set base_token_index
                   ⟨a.mint.key, m.decimals, a.oracle.key⟩,
                 num_base_tokens := base_token_index + 1 }, []⟩

/-- The twelve accounts of `add_leverage_token`. -/
structure AddLeverageTokenAccounts where
  quasar_group : AccountInfo
  mint : AccountInfo
  base_token_mint : AccountInfo
  mango_program : AccountInfo
  mango_group : AccountInfo
  mango_account : AccountInfo
  mango_perp_market : AccountInfo
  system_program : AccountInfo
  token_program : AccountInfo
  rent_program : AccountInfo
  admin : AccountInfo
  pda : AccountInfo
  deriving DecidableEq, Repr

/-- processor.rs `Processor::add_leverage_token`.  All validation precedes the
two cross-module invocations, and the registry append is performed only after
both have succeeded. -/
def add_leverage_token (program_id : Pubkey) (g : QuasarGroup)
    (a : AddLeverageTokenAccounts) (target_leverage : I80F48) (env : Env) :
    HandlerResult :=
  match quasar_group_load_checked g a.quasar_group program_id with
  | some e => ⟨.err e, g, []⟩
  | none =>
    if !a.admin.is_signer then ⟨.err (.quasar .SignerNecessary), g, []⟩
    else if a.admin.key ≠ g.admin_key then ⟨.err (.quasar .InvalidAdminKey), g, []⟩
    else if !(g.find_base_token_index a.base_token_mint.key).isSome then
      ⟨.err (.quasar .InvalidAccount), g, []⟩
    else if (g.find_leverage_token_index a.base_token_mint.key
        target_leverage).isSome then
      ⟨.err (.quasar .Default), g, []⟩
    else
      let token_index := g.num_leverage_tokens
      match g.leverage_tokens[token_index]? with
      | none => ⟨.panic, g, []⟩
      | some slot =>
        if !slot.is_empty then ⟨.err (.quasar .Default), g, []⟩
        else if a.pda.key ≠ g.signer_key then
          ⟨.err (.quasar .InvalidSignerKey), g, []⟩
        else
          let signer_seeds := CpiSeeds.derived a.quasar_group.key g.signer_nonce
          match init_mango_account env a.mango_program a.mango_group
              a.mango_account a.pda signer_seeds with
          | (some e, t1) => ⟨.err e, g, t1⟩
          | (none, t1) =>
            match create_and_initialize_mint_account env a.admin a.mint a.pda
                a.token_program a.system_program a.rent_program signer_seeds
                LEVERGAE_TOKEN_DECIMALS with
            | (some e, t2) => ⟨.err e, g, t1 ++ t2⟩
            | (none, t2) =>
              ⟨.ok,
               { g with
                 leverage_tokens := g.leverage_tokens.set token_index
                   ⟨a.mint.key, a.base_token_mint.key, target_leverage,
                    a.mango_account.key, a.mango_perp_market.key⟩,
                 num_leverage_tokens := token_index + 1 }, t1 ++ t2⟩

/-- The twelve accounts of `mint_leverage_token`. -/
structure MintLeverageTokenAccounts where
  quasar_group : AccountInfo
  base_token_mint : AccountInfo
  mango_program : AccountInfo
  mango_group : AccountInfo
  mango_account : AccountInfo
  owner : AccountInfo
  mango_cache : AccountInfo
  root_bank : AccountInfo
  node_bank : AccountInfo
  vault : AccountInfo
  token_program : AccountInfo
  owner_token_account : AccountInfo
  deriving DecidableEq, Repr

/-- processor.rs `Processor::mint_leverage_token`: loads the group read-only,
then deposits `quantity` into the margin account via a cross-module
invocation signed by the caller (`&[&[]]`).  The `target_leverage` argument
is accepted but never used; the position-sizing and token-minting legs are
absent. -/
def mint_leverage_token (program_id : Pubkey) (g : QuasarGroup)
    (a : MintLeverageTokenAccounts) (target_leverage : I80F48) (quantity : Nat)
    (env : Env) : HandlerResult :=
  match quasar_group_load_checked g a.quasar_group program_id with
  | some e => ⟨.err e, g, []⟩
  | none =>
    match deposit_to_mango_account env a.mango_program a.mango_group
        a.mango_account a.owner a.mango_cache a.root_bank a.node_bank a.vault
        a.token_program a.owner_token_account CpiSeeds.emptySigner quantity with
    | (some e, t) => ⟨.err e, g, t⟩
    | (none, t) => ⟨.ok, g, t⟩

/-- processor.rs `Processor::redeem_leverage_token`: a stub that immediately
returns success. -/
def redeem_leverage_token (_program_id : Pubkey) (g : QuasarGroup)
    (_quantity : Nat) (_env : Env) : HandlerResult :=
  ⟨.ok, g, []⟩

/-- The four accounts of `test_create_account`. -/
structure TestCreateAccountAccounts where
  signer : AccountInfo
  owner : AccountInfo
  new_account : AccountInfo
  system_program : AccountInfo
  deriving DecidableEq, Repr

/-- processor.rs `Processor::test_create_account`: creates a 10-byte account
owned by `owner` and funded by `signer`. -/
def test_create_account (_program_id : Pubkey) (g : QuasarGroup)
    (a : TestCreateAccountAccounts) (env : Env) : HandlerResult :=
  match create_account env a.signer a.new_account 10 a.owner a.system_program with
  | (some e, t) => ⟨.err e, g, t⟩
  | (none, t) => ⟨.ok, g, t⟩

/-- Result of `read_oracle`: a price, a returned error, or a panic. -/
inductive PriceResult where
  | ok (price : I80F48)
  | err (e : PErr)
  | panic
  deriving DecidableEq, Repr

/-- processor.rs `read_oracle`: classify the price source, then normalize.
For a Pyth feed the adjustment exponent is
`(quote_decimals + expo) - quote_decimals`, i.e. the feed's own exponent; the
mantissa is divided by `10^|adj|` when the adjustment is negative and
multiplied by `10^adj` otherwise (each `unwrap` on a checked operation is a
panic, as is the `panic!` on an unknown oracle). -/
def read_oracle (base_token : BaseToken) (oracle_ai : AccountInfo) : PriceResult :=
  match determine_oracle_type oracle_ai with
  | .pyth =>
    match oracle_ai.data with
    | .pyth p =>
      match I80F48.fromNum p.price with
      | none => .panic
      | some value =>
        let quote : Int := base_token.decimals
        match i32Checked (quote + p.expo) with
        | none => .panic
        | some s1 =>
          match i32Checked (s1 - quote) with
          | none => .panic
          | some decimals =>
            match I80F48.fromNum (((10 : Int) ^ decimals.natAbs) % 2 ^ 64) with
            | none => .panic
            | some decimal_adj =>
              if decimals < 0 then
                match value.checkedDiv decimal_adj with
                | none => .panic
                | some r => .ok r
              else
                match value.checkedMul decimal_adj with
                | none => .panic
                | some r => .ok r
    | _ => .panic
  | .stub =>
    match oracle_ai.data with
    | .stub s => .ok s.price
    | _ => .err .program
  | .unknown => .panic

/-- One decoded instruction together with its accounts, as routed by
`Processor::process` (the wire decoding of the tag is out of scope). -/
inductive Call where
  | initQuasarGroup (a : InitGroupAccounts) (signer_nonce : Nat)
  | addBaseToken (a : AddBaseTokenAccounts)
  | addLeverageToken (a : AddLeverageTokenAccounts) (target_leverage : I80F48)
  | mintLeverageToken (a : MintLeverageTokenAccounts) (target_leverage : I80F48)
      (quantity : Nat)
  | redeemLeverageToken (quantity : Nat)
  | testCreateAccount (a : TestCreateAccountAccounts)

/-- `Processor::process` after instruction decoding: route to the handler.
`g` is the content of the group record the call (possibly) operates on. -/
def processCall (program_id : Pubkey) (g : QuasarGroup) (c : Call) (env : Env) :
    HandlerResult :=
  match c with
  | .initQuasarGroup a nonce => init_quasar_group program_id g a nonce env
  | .addBaseToken a => add_base_token program_id g a env
  | .addLeverageToken a tl => add_leverage_token program_id g a tl env
  | .mintLeverageToken a tl q => mint_leverage_token program_id g a tl q env
  | .redeemLeverageToken q => redeem_leverage_token program_id g q env
  | .testCreateAccount a => test_create_account program_id g a env

/-- Case characterization of an `add_base_token` result: either the call
succeeded, appended the decoded mint at index `num_base_tokens` (which held
an empty slot) and dispatched nothing, or it returned an error or panicked
with the group untouched and nothing dispatched. -/
def AddBaseTokenCases (g : QuasarGroup) (a : AddBaseTokenAccounts)
    (r : HandlerResult) : Prop :=
  (∃ slot m,
      g.find_base_token_index a.mint.key = none ∧
      g.base_tokens[g.num_base_tokens]? = some slot ∧
      slot.is_empty = true ∧
      unpack_mint a.mint = some m ∧
      r = ⟨.ok,
        { g with
          base_tokens := g.base_tokens.set g.num_base_tokens
            ⟨a.mint.key, m.decimals, a.oracle.key⟩,
          num_base_tokens := g.num_base_tokens + 1 }, []⟩) ∨
  (∃ e, r = ⟨.err e, g, []⟩) ∨ r = ⟨.panic, g, []⟩

theorem add_base_token_cases (program_id : Pubkey) (g : QuasarGroup)
    (a : AddBaseTokenAccounts) (env : Env) :
    AddBaseTokenCases g a (add_base_token program_id g a env) := by
  unfold add_base_token
  repeat' split <;>
    try (first
      | simp_all [AddBaseTokenCases, Option.isSome_iff_exists,
          Option.eq_none_iff_forall_not_mem, Option.mem_def, Bool.not_eq_true]
      | simp [AddBaseTokenCases])

/-- Case characterization of an `add_leverage_token` result: either the call
succeeded — the `(base mint, target leverage)` pair was not yet registered,
the slot at `num_leverage_tokens` was present and empty, and the new entry
was appended there — or it failed (error or panic) with the group
untouched. -/
def AddLeverageTokenCases (g : QuasarGroup) (a : AddLeverageTokenAccounts)
    (target_leverage : I80F48) (r : HandlerResult) : Prop :=
  (g.find_leverage_token_index a.base_token_mint.key target_leverage = none ∧
    (∃ slot, g.leverage_tokens[g.num_leverage_tokens]? = some slot ∧
      slot.is_empty = true) ∧
    r.outcome = .ok ∧
    r.group =
      { g with
        leverage_tokens := g.leverage_tokens.set g.num_leverage_tokens
          ⟨a.mint.key, a.base_token_mint.key, target_leverage,
           a.mango_account.key, a.mango_perp_market.key⟩,
        num_leverage_tokens := g.num_leverage_tokens + 1 }) ∨
  (r.outcome ≠ .ok ∧ r.group = g)

theorem add_leverage_token_cases (program_id : Pubkey) (g : QuasarGroup)
    (a : AddLeverageTokenAccounts) (target_leverage : I80F48) (env : Env) :
    AddLeverageTokenCases g a target_leverage
      (add_leverage_token program_id g a target_leverage env) := by
  unfold add_leverage_token
  repeat' split <;>
    try (first
      | simp_all [AddLeverageTokenCases, Option.isSome_iff_exists,
          Option.eq_none_iff_forall_not_mem, Option.mem_def, Bool.not_eq_true]
      | simp [AddLeverageTokenCases])

/-- Case characterization of an `init_quasar_group` result: success, or an
error with the record untouched and nothing dispatched, or the one partial
error path — a failed admin co-signature check, which happens after the
signer fields and the margin-module id have been written. -/
def InitGroupCases (g : QuasarGroup) (a : InitGroupAccounts)
    (signer_nonce : Nat) (r : HandlerResult) : Prop :=
  r.outcome = .ok ∨
  (r.outcome ≠ .ok ∧ r.group = g ∧ r.cpis = []) ∨
  (a.admin.is_signer = false ∧ r.outcome = .err (.quasar .Default) ∧
    r.group = { g with signer_nonce := signer_nonce,
                       signer_key := a.signer.key,
                       mango_program_id := a.mango_program.key } ∧
    r.cpis = [])

theorem init_quasar_group_cases (program_id : Pubkey) (g : QuasarGroup)
    (a : InitGroupAccounts) (signer_nonce : Nat) (env : Env) :
    InitGroupCases g a signer_nonce
      (init_quasar_group program_id g a signer_nonce env) := by
  unfold init_quasar_group
  repeat' split <;>
    try (first
      | simp_all [InitGroupCases, Bool.not_eq_true]
      | simp [InitGroupCases])

/-- The slots `[0, n)` of `l` carry pairwise distinct keys. -/
def keyDistinct {α κ : Type} (key : α → κ) (l : List α) (n : Nat) : Prop :=
  ∀ i j x y, i < n → j < n → i ≠ j →
    l[i]? = some x → l[j]? = some y → key x ≠ key y

theorem keyDistinct_set {α κ : Type} (key : α → κ) (l : List α) (n : Nat)
    (v : α) (hn : n < l.length) (hnone : ∀ x ∈ l, key x ≠ key v)
    (hd : keyDistinct key l n) : keyDistinct key (l.set n v) (n + 1) := by
  intro i j x y hi hj hij hx hy
  rcases Nat.lt_succ_iff_lt_or_eq.mp hi with hi' | rfl
  · rcases Nat.lt_succ_iff_lt_or_eq.mp hj with hj' | rfl
    · rw [List.getElem?_set_ne (Nat.ne_of_gt hi')] at hx
      rw [List.getElem?_set_ne (Nat.ne_of_gt hj')] at hy
      exact hd i j x y hi' hj' hij hx hy
    · rw [List.getElem?_set_self hn] at hy
      rw [List.getElem?_set_ne (Nat.ne_of_gt hi')] at hx
      cases hy
      exact hnone x (List.getElem?_mem hx)
  · rcases Nat.lt_succ_iff_lt_or_eq.mp hj with hj' | rfl
    · rw [List.getElem?_set_self hn] at hx
      rw [List.getElem?_set_ne (Nat.ne_of_gt hj')] at hy
      cases hx
      exact fun hk => hnone y (List.getElem?_mem hy) hk.symm
    · exact absurd rfl hij

/-- Invariant 3 of the spec: no two populated base-token slots share the same
underlying-asset (mint) identity. -/
def baseMintsDistinct (g : QuasarGroup) : Prop :=
  keyDistinct BaseToken.mint g.base_tokens g.num_base_tokens

/-- Invariant 4 of the spec: no two populated leverage-token slots share the
same `(base_token, target_leverage)` pair. -/
def levPairsDistinct (g : QuasarGroup) : Prop :=
  keyDistinct (fun t => (t.base_token_mint, t.target_leverage))
    g.leverage_tokens g.num_leverage_tokens

theorem add_base_token_preserves_distinct (program_id : Pubkey)
    (g : QuasarGroup) (a : AddBaseTokenAccounts) (env : Env)
    (hd : baseMintsDistinct g) :
    baseMintsDistinct (add_base_token program_id g a env).group := by
  rcases add_base_token_cases program_id g a env with
    ⟨slot, m, hfind, hslot, _, _, hr⟩ | ⟨e, hr⟩ | hr
  · rw [hr]
    have hlen : g.num_base_tokens < g.base_tokens.length :=
      (List.getElem?_eq_some_iff.mp hslot).1
    have hnone : ∀ x ∈ g.base_tokens, x.mint ≠ a.mint.key := by
      intro x hx
      have := positionOf_eq_none _ _ hfind x hx
      simpa using this
    exact keyDistinct_set _ _ _ _ hlen hnone hd
  · rw [hr]; exact hd
  · rw [hr]; exact hd

theorem add_leverage_token_preserves_distinct (program_id : Pubkey)
    (g : QuasarGroup) (a : AddLeverageTokenAccounts) (target_leverage : I80F48)
    (env : Env) (hd : levPairsDistinct g) :
    levPairsDistinct (add_leverage_token program_id g a target_leverage env).group := by
  rcases add_leverage_token_cases program_id g a target_leverage env with
    ⟨hfind, ⟨slot, hslot, _⟩, _, hr⟩ | ⟨_, hr⟩
  · rw [hr]
    have hlen : g.num_leverage_tokens < g.leverage_tokens.length :=
      (List.getElem?_eq_some_iff.mp hslot).1
    have hnone : ∀ x ∈ g.leverage_tokens,
        (x.base_token_mint, x.target_leverage) ≠ (a.base_token_mint.key, target_leverage) := by
      intro x hx
      have := positionOf_eq_none _ _ hfind x hx
      simp only [Bool.and_eq_false_iff, beq_eq_false_iff_ne] at this
      intro hpair
      have h1 : x.base_token_mint = a.base_token_mint.key := congrArg Prod.fst hpair
      have h2 : x.target_leverage = target_leverage := congrArg Prod.snd hpair
      rcases this with h | h
      · exact h h1
      · exact h h2
    exact keyDistinct_set _ _ _ _ hlen hnone hd
  · rw [hr]; exact hd

/-- Folding a sequence of `AddBaseToken` calls, each with its own accounts
and environment, over a starting group record.  A failed call leaves the
record as it was, so the fold visits exactly the observation points of the
sequence. -/
def runAddBaseTokens (program_id : Pubkey) (g : QuasarGroup)
    (calls : List (AddBaseTokenAccounts × Env)) : QuasarGroup :=
  calls.foldl (fun gr c => (add_base_token program_id gr c.1 c.2).group) g

/-- Folding a sequence of `AddLeverageToken` calls over a starting group
record. -/
def runAddLeverageTokens (program_id : Pubkey) (g : QuasarGroup)
    (calls : List (AddLeverageTokenAccounts × I80F48 × Env)) : QuasarGroup :=
  calls.foldl
    (fun gr c => (add_leverage_token program_id gr c.1 c.2.1 c.2.2).group) g

theorem runAddBaseTokens_distinct (program_id : Pubkey)
    (calls : List (AddBaseTokenAccounts × Env)) :
    ∀ g : QuasarGroup, baseMintsDistinct g →
      baseMintsDistinct (runAddBaseTokens program_id g calls) := by
  induction calls with
  | nil => intro g hg; exact hg
  | cons c t ih =>
    intro g hg
    exact ih _ (add_base_token_preserves_distinct program_id g c.1 c.2 hg)

theorem runAddLeverageTokens_distinct (program_id : Pubkey)
    (calls : List (AddLeverageTokenAccounts × I80F48 × Env)) :
    ∀ g : QuasarGroup, levPairsDistinct g →
      levPairsDistinct (runAddLeverageTokens program_id g calls) := by
  induction calls with
  | nil => intro g hg; exact hg
  | cons c t ih =>
    intro g hg
    exact ih _
      (add_leverage_token_preserves_distinct program_id g c.1 c.2.1 c.2.2 hg)

/-- An empty leverage-token slot (all zero). -/
def zeroLeverageToken : LeverageToken := ⟨0, 0, ⟨0⟩, 0, 0⟩

/-- An empty base-token slot (all zero). -/
def zeroBaseToken : BaseToken := ⟨0, 0, 0⟩

/-- A benign environment: every account is rent-exempt and every
cross-module invocation succeeds. -/
def okEnv : Env := ⟨fun _ _ => true, fun _ => none⟩

/-- C3: for any sequence of AddBaseToken calls starting from an initialized
group, at every observation point no two populated base-token slots share the
same mint identity; a call whose mint already has a registry entry is
rejected with an error that leaves the group record unchanged and dispatches
nothing. -/
theorem c3_addBaseToken_mint_uniqueness (program_id : Pubkey)
    (g0 : QuasarGroup) (h0 : g0.num_base_tokens = 0) :
    (∀ calls, baseMintsDistinct (runAddBaseTokens program_id g0 calls)) ∧
    (∀ (g : QuasarGroup) (a : AddBaseTokenAccounts) (env : Env),
      (g.find_base_token_index a.mint.key).isSome →
        ∃ e, add_base_token program_id g a env = ⟨.err e, g, []⟩) := by
  constructor
  · intro calls
    apply runAddBaseTokens_distinct
    intro i j x y hi
    rw [h0] at hi
    exact absurd hi (Nat.not_lt_zero i)
  · intro g a env hsome
    unfold add_base_token
    repeat' split <;>
      try (first
        | exact ⟨_, rfl⟩
        | simp_all)

/-- A freshly initialized group: registries empty, two slots of capacity in
each. -/
def c3InitialGroup : QuasarGroup :=
  ⟨⟨.quasarGroup, 0, true⟩, 5, 55, 9, 2, 0, [zeroBaseToken, zeroBaseToken],
    0, [zeroLeverageToken, zeroLeverageToken]⟩

theorem c3_witness :
    c3InitialGroup.num_base_tokens = 0 ∧
    ((∀ calls, baseMintsDistinct (runAddBaseTokens 1 c3InitialGroup calls)) ∧
     (∀ (g : QuasarGroup) (a : AddBaseTokenAccounts) (env : Env),
       (g.find_base_token_index a.mint.key).isSome →
         ∃ e, add_base_token 1 g a env = ⟨.err e, g, []⟩)) :=
  ⟨rfl, c3_addBaseToken_mint_uniqueness 1 c3InitialGroup rfl⟩

/-- C4: for any sequence of AddLeverageToken calls starting from an
initialized group, at every observation point no two populated leverage-token
slots share the same `(base_token, target_leverage)` pair; a call for an
already-registered pair is rejected with an error that leaves the group
record unchanged and dispatches nothing. -/
theorem c4_addLeverageToken_pair_uniqueness (program_id : Pubkey)
    (g0 : QuasarGroup) (h0 : g0.num_leverage_tokens = 0) :
    (∀ calls, levPairsDistinct (runAddLeverageTokens program_id g0 calls)) ∧
    (∀ (g : QuasarGroup) (a : AddLeverageTokenAccounts) (tl : I80F48) (env : Env),
      (g.find_leverage_token_index a.base_token_mint.key tl).isSome →
        ∃ e, add_leverage_token program_id g a tl env = ⟨.err e, g, []⟩) := by
  constructor
  · intro calls
    apply runAddLeverageTokens_distinct
    intro i j x y hi
    rw [h0] at hi
    exact absurd hi (Nat.not_lt_zero i)
  · intro g a tl env hsome
    unfold add_leverage_token
    repeat' split <;>
      try (first
        | exact ⟨_, rfl⟩
        | simp_all)

/-- A freshly initialized group for the C4 witness. -/
def c4InitialGroup : QuasarGroup :=
  ⟨⟨.quasarGroup, 0, true⟩, 5, 55, 9, 2, 0, [zeroBaseToken, zeroBaseToken],
    0, [zeroLeverageToken, zeroLeverageToken]⟩

theorem c4_witness :
    c4InitialGroup.num_leverage_tokens = 0 ∧
    ((∀ calls, levPairsDistinct (runAddLeverageTokens 1 c4InitialGroup calls)) ∧
     (∀ (g : QuasarGroup) (a : AddLeverageTokenAccounts) (tl : I80F48) (env : Env),
       (g.find_leverage_token_index a.base_token_mint.key tl).isSome →
         ∃ e, add_leverage_token 1 g a tl env = ⟨.err e, g, []⟩)) :=
  ⟨rfl, c4_addLeverageToken_pair_uniqueness 1 c4InitialGroup rfl⟩

/-- C9: for every price-source account classified `Unknown`, `read_oracle`
panics (aborts execution) instead of returning a typed, recoverable error. -/
theorem c9_read_oracle_unknown_panics (base_token : BaseToken)
    (oracle_ai : AccountInfo)
    (h : determine_oracle_type oracle_ai = .unknown) :
    read_oracle base_token oracle_ai = .panic := by
  unfold read_oracle
  rw [h]

/-- A base token and an unclassifiable oracle account for the C9 witness. -/
def c9BaseToken : BaseToken := ⟨11, 6, 33⟩

/-- An account whose data matches no known oracle layout. -/
def c9OracleAccount : AccountInfo := ⟨33, 0, false, 0, .raw⟩

theorem c9_witness :
    determine_oracle_type c9OracleAccount = .unknown ∧
    read_oracle c9BaseToken c9OracleAccount = .panic :=
  ⟨rfl, c9_read_oracle_unknown_panics c9BaseToken c9OracleAccount rfl⟩

/-- C10: `mint_leverage_token` is observably independent of its
`target_leverage` argument — two calls differing only in `target_leverage`
produce the same outcome, final group and dispatched-invocation trace — and
every run leaves the group record unchanged (it is loaded read-only). -/
theorem c10_mintLeverageToken_ignores_target_leverage (program_id : Pubkey)
    (g : QuasarGroup) (a : MintLeverageTokenAccounts) (tl1 tl2 : I80F48)
    (quantity : Nat) (env : Env) :
    mint_leverage_token program_id g a tl1 quantity env =
      mint_leverage_token program_id g a tl2 quantity env ∧
    (mint_leverage_token program_id g a tl1 quantity env).group = g := by
  refine ⟨rfl, ?_⟩
  unfold mint_leverage_token
  repeat' split <;> try rfl

/-- C7: every successful AddBaseToken call on a non-full registry increments
`num_base_tokens` by exactly 1, writes the new entry — the asset mint, the
mint's decimal precision and the supplied oracle identity — at the index
equal to the pre-call count (which held an empty slot), and leaves every
other slot unchanged. -/
theorem c7_addBaseToken_success_appends (program_id : Pubkey)
    (g : QuasarGroup) (a : AddBaseTokenAccounts) (env : Env)
    (h : (add_base_token program_id g a env).outcome = .ok) :
    ∃ slot m,
      g.base_tokens[g.num_base_tokens]? = some slot ∧
      slot.is_empty = true ∧
      unpack_mint a.mint = some m ∧
      (add_base_token program_id g a env).group.num_base_tokens =
        g.num_base_tokens + 1 ∧
      (add_base_token program_id g a env).group.base_tokens[g.num_base_tokens]? =
        some ⟨a.mint.key, m.decimals, a.oracle.key⟩ ∧
      (∀ i, i ≠ g.num_base_tokens →
        (add_base_token program_id g a env).group.base_tokens[i]? =
          g.base_tokens[i]?) ∧
      (add_base_token program_id g a env).group.leverage_tokens =
        g.leverage_tokens ∧
      (add_base_token program_id g a env).group.num_leverage_tokens =
        g.num_leverage_tokens := by
  rcases add_base_token_cases program_id g a env with
    ⟨slot, m, _, hslot, hempty, hm, hr⟩ | ⟨e, hr⟩ | hr
  · have hlen : g.num_base_tokens < g.base_tokens.length :=
      (List.getElem?_eq_some_iff.mp hslot).1
    rw [hr]
    refine ⟨slot, m, hslot, hempty, hm, rfl, ?_, ?_, rfl, rfl⟩
    · exact List.getElem?_set_self hlen
    · intro i hi
      exact List.getElem?_set_ne (fun he => hi he.symm)
  · rw [hr] at h; exact absurd h (by simp)
  · rw [hr] at h; exact absurd h (by simp)

/-- A group with one free base-token slot for the C7 witness. -/
def c7Group : QuasarGroup :=
  ⟨⟨.quasarGroup, 0, true⟩, 5, 55, 9, 2, 1, [⟨11, 6, 21⟩, zeroBaseToken],
    0, [zeroLeverageToken, zeroLeverageToken]⟩

/-- Accounts for a valid AddBaseToken call: a new initialized mint with 8
decimals and a Pyth price account, co-signed by the admin. -/
def c7Accounts : AddBaseTokenAccounts :=
  ⟨⟨7, 1, false, 0, .raw⟩, ⟨22, 0, false, 0, .mint ⟨8, true⟩⟩,
   ⟨34, 0, false, 0, .pyth ⟨100, -8⟩⟩, ⟨9, 0, true, 0, .raw⟩⟩

theorem c7_witness :
    (add_base_token 1 c7Group c7Accounts okEnv).outcome = .ok ∧
    (∃ slot m,
      c7Group.base_tokens[c7Group.num_base_tokens]? = some slot ∧
      slot.is_empty = true ∧
      unpack_mint c7Accounts.mint = some m ∧
      (add_base_token 1 c7Group c7Accounts okEnv).group.num_base_tokens =
        c7Group.num_base_tokens + 1 ∧
      (add_base_token 1 c7Group c7Accounts
          okEnv).group.base_tokens[c7Group.num_base_tokens]? =
        some ⟨c7Accounts.mint.key, m.decimals, c7Accounts.oracle.key⟩ ∧
      (∀ i, i ≠ c7Group.num_base_tokens →
        (add_base_token 1 c7Group c7Accounts okEnv).group.base_tokens[i]? =
          c7Group.base_tokens[i]?) ∧
      (add_base_token 1 c7Group c7Accounts okEnv).group.leverage_tokens =
        c7Group.leverage_tokens ∧
      (add_base_token 1 c7Group c7Accounts okEnv).group.num_leverage_tokens =
        c7Group.num_leverage_tokens) :=
  ⟨by decide, c7_addBaseToken_success_appends 1 c7Group c7Accounts okEnv (by decide)⟩

/-- The guards of `add_base_token` that run before the slot-index access:
group loading, admin co-signature and identity, duplicate-mint rejection, and
the oracle-classification branch. -/
def addBaseTokenChecksPass (program_id : Pubkey) (g : QuasarGroup)
    (a : AddBaseTokenAccounts) (env : Env) : Bool :=
  (quasar_group_load_checked g a.quasar_group program_id).isNone &&
  a.admin.is_signer && (a.admin.key == g.admin_key) &&
  (g.find_base_token_index a.mint.key).isNone &&
  (match determine_oracle_type a.oracle with
   | .pyth => true
   | .stub => (stub_oracle_load_and_init program_id a.oracle env).isNone
   | .unknown => (stub_oracle_load_and_init program_id a.oracle env).isNone)

/-- C6 (amended): on a full base-token registry
(`num_base_tokens = MAX_BASE`), the next AddBaseToken call never succeeds and
leaves the group record unchanged; when every check before the slot access
passes, the call aborts with an out-of-bounds panic on
`base_tokens[num_base_tokens]` rather than returning a typed capacity
error. -/
theorem c6_full_base_registry_aborts (program_id : Pubkey) (g : QuasarGroup)
    (a : AddBaseTokenAccounts) (env : Env)
    (hfull : g.num_base_tokens = g.base_tokens.length) :
    (add_base_token program_id g a env).group = g ∧
    (add_base_token program_id g a env).outcome ≠ .ok ∧
    (addBaseTokenChecksPass program_id g a env = true →
      (add_base_token program_id g a env).outcome = .panic) := by
  have hnone : g.base_tokens[g.num_base_tokens]? = none :=
    List.getElem?_eq_none (Nat.le_of_eq hfull.symm)
  refine ⟨?_, ?_, ?_⟩
  · rcases add_base_token_cases program_id g a env with
      ⟨slot, m, _, hslot, _, _, hr⟩ | ⟨e, hr⟩ | hr
    · rw [hnone] at hslot; cases hslot
    · rw [hr]
    · rw [hr]
  · intro hok
    rcases add_base_token_cases program_id g a env with
      ⟨slot, m, _, hslot, _, _, hr⟩ | ⟨e, hr⟩ | hr
    · rw [hnone] at hslot; cases hslot
    · rw [hr] at hok; exact absurd hok (by simp)
    · rw [hr] at hok; exact absurd hok (by simp)
  · intro hchecks
    simp only [addBaseTokenChecksPass, Bool.and_eq_true, beq_iff_eq] at hchecks
    obtain ⟨⟨⟨⟨hload, hsigner⟩, hkey⟩, hfind⟩, horacle⟩ := hchecks
    rw [Option.isNone_iff_eq_none] at hload hfind
    unfold add_base_token
    cases hot : determine_oracle_type a.oracle
    case pyth => simp [hload, hsigner, hkey, hfind, hnone, hot]
    case stub =>
      rw [hot] at horacle
      rw [Option.isNone_iff_eq_none] at horacle
      simp [hload, hsigner, hkey, hfind, hnone, hot, horacle]
    case unknown =>
      rw [hot] at horacle
      rw [Option.isNone_iff_eq_none] at horacle
      simp [hload, hsigner, hkey, hfind, hnone, hot, horacle]

/-- A group whose base-token registry is full (one slot, one entry). -/
def c6FullGroup : QuasarGroup :=
  ⟨⟨.quasarGroup, 0, true⟩, 5, 55, 9, 2, 1, [⟨11, 6, 21⟩],
    0, [zeroLeverageToken]⟩

/-- A valid AddBaseToken call for a fresh mint against the full group. -/
def c6Accounts : AddBaseTokenAccounts :=
  ⟨⟨7, 1, false, 0, .raw⟩, ⟨22, 0, false, 0, .mint ⟨6, true⟩⟩,
   ⟨34, 0, false, 0, .pyth ⟨100, -8⟩⟩, ⟨9, 0, true, 0, .raw⟩⟩

/-- C6 counterexample to the claim as stated: on this full registry, with
every authorization and duplicate check passing, the call's outcome is a
panic (process abort), so no error — in particular no capacity error — is
returned. -/
theorem c6_counterexample :
    c6FullGroup.num_base_tokens = c6FullGroup.base_tokens.length ∧
    (add_base_token 1 c6FullGroup c6Accounts okEnv).outcome = .panic ∧
    ∀ e, (add_base_token 1 c6FullGroup c6Accounts okEnv).outcome ≠ .err e := by
  have hp : (add_base_token 1 c6FullGroup c6Accounts okEnv).outcome = .panic := by
    decide
  refine ⟨by decide, hp, ?_⟩
  intro e he
  rw [hp] at he
  cases he

theorem c6_witness :
    c6FullGroup.num_base_tokens = c6FullGroup.base_tokens.length ∧
    addBaseTokenChecksPass 1 c6FullGroup c6Accounts okEnv = true ∧
    ((add_base_token 1 c6FullGroup c6Accounts okEnv).group = c6FullGroup ∧
     (add_base_token 1 c6FullGroup c6Accounts okEnv).outcome ≠ .ok ∧
     (addBaseTokenChecksPass 1 c6FullGroup c6Accounts okEnv = true →
       (add_base_token 1 c6FullGroup c6Accounts okEnv).outcome = .panic)) :=
  ⟨by decide, by decide,
    c6_full_base_registry_aborts 1 c6FullGroup c6Accounts okEnv (by decide)⟩

theorem add_base_token_admin_gate (program_id : Pubkey) (g : QuasarGroup)
    (a : AddBaseTokenAccounts) (env : Env)
    (hm : ¬(a.admin.is_signer = true ∧ a.admin.key = g.admin_key)) :
    ∃ e, add_base_token program_id g a env = ⟨.err e, g, []⟩ := by
  unfold add_base_token
  repeat' split <;>
    try (first
      | exact ⟨_, rfl⟩
      | simp_all)

theorem add_leverage_token_admin_gate (program_id : Pubkey) (g : QuasarGroup)
    (a : AddLeverageTokenAccounts) (target_leverage : I80F48) (env : Env)
    (hm : ¬(a.admin.is_signer = true ∧ a.admin.key = g.admin_key)) :
    ∃ e, add_leverage_token program_id g a target_leverage env = ⟨.err e, g, []⟩ := by
  unfold add_leverage_token
  repeat' split <;>
    try (first
      | exact ⟨_, rfl⟩
      | simp_all)

theorem add_leverage_token_pda_gate (program_id : Pubkey) (g : QuasarGroup)
    (a : AddLeverageTokenAccounts) (target_leverage : I80F48) (env : Env)
    (hpda : a.pda.key ≠ g.signer_key) :
    (add_leverage_token program_id g a target_leverage env).group = g ∧
    (add_leverage_token program_id g a target_leverage env).cpis = [] ∧
    (add_leverage_token program_id g a target_leverage env).outcome ≠ .ok ∧
    (g.num_leverage_tokens < g.leverage_tokens.length →
      ∃ e, (add_leverage_token program_id g a target_leverage env).outcome = .err e) := by
  unfold add_leverage_token
  repeat' split <;>
    try (first
      | exact ⟨rfl, rfl, by simp, fun _ => ⟨_, rfl⟩⟩
      | (refine ⟨rfl, rfl, by simp, fun hlen => absurd hlen ?_⟩
         simp_all [List.getElem?_eq_none_iff]
         done)
      | (simp_all
         try (intro h; split <;> exact ⟨_, rfl⟩)))

/-- C5 (amended): every AddBaseToken or AddLeverageToken call whose admin
account is not a signer or does not equal the stored admin identity returns
an error with the group unchanged and nothing dispatched; every
AddLeverageToken call whose derived-authority account differs from the
stored `signer_key` dispatches no invocation, leaves the group unchanged and
never succeeds — it returns an error whenever the leverage-registry slot
index is in range, and otherwise aborts on the out-of-bounds slot access
that precedes the authority comparison. -/
theorem c5_admin_and_authority_gating (program_id : Pubkey) (g : QuasarGroup)
    (ab : AddBaseTokenAccounts) (al : AddLeverageTokenAccounts)
    (tl : I80F48) (env : Env) :
    (¬(ab.admin.is_signer = true ∧ ab.admin.key = g.admin_key) →
      ∃ e, add_base_token program_id g ab env = ⟨.err e, g, []⟩) ∧
    (¬(al.admin.is_signer = true ∧ al.admin.key = g.admin_key) →
      ∃ e, add_leverage_token program_id g al tl env = ⟨.err e, g, []⟩) ∧
    (al.pda.key ≠ g.signer_key →
      (add_leverage_token program_id g al tl env).group = g ∧
      (add_leverage_token program_id g al tl env).cpis = [] ∧
      (add_leverage_token program_id g al tl env).outcome ≠ .ok ∧
      (g.num_leverage_tokens < g.leverage_tokens.length →
        ∃ e, (add_leverage_token program_id g al tl env).outcome = .err e)) :=
  ⟨add_base_token_admin_gate program_id g ab env,
   add_leverage_token_admin_gate program_id g al tl env,
   add_leverage_token_pda_gate program_id g al tl env⟩

/-- A group whose leverage-token registry is full (one slot, one entry). -/
def c5FullLevGroup : QuasarGroup :=
  ⟨⟨.quasarGroup, 0, true⟩, 5, 55, 9, 2, 1, [⟨11, 6, 21⟩],
    1, [⟨31, 11, ⟨2 ^ 48⟩, 42, 43⟩]⟩

/-- An AddLeverageToken call with a mismatched derived-authority account
(pda key 99, stored signer key 55) against the full leverage registry; all
checks before the slot access pass. -/
def c5Accounts : AddLeverageTokenAccounts :=
  ⟨⟨7, 1, false, 0, .raw⟩, ⟨32, 0, false, 0, .raw⟩, ⟨11, 0, false, 0, .raw⟩,
   ⟨2, 0, false, 0, .raw⟩, ⟨41, 0, false, 0, .raw⟩, ⟨42, 0, false, 0, .raw⟩,
   ⟨43, 0, false, 0, .raw⟩, ⟨901, 0, false, 0, .raw⟩, ⟨902, 0, false, 0, .raw⟩,
   ⟨903, 0, false, 0, .raw⟩, ⟨9, 0, true, 0, .raw⟩, ⟨99, 0, false, 0, .raw⟩⟩

/-- C5 counterexample to the claim as stated: this call's derived-authority
account does not match the stored signer key, yet the call does not return an
error — it aborts with an out-of-bounds panic on the full leverage registry,
before the authority comparison is reached. -/
theorem c5_counterexample :
    c5Accounts.pda.key ≠ c5FullLevGroup.signer_key ∧
    (add_leverage_token 1 c5FullLevGroup c5Accounts ⟨2 * 2 ^ 48⟩ okEnv).outcome
      = .panic ∧
    ∀ e, (add_leverage_token 1 c5FullLevGroup c5Accounts ⟨2 * 2 ^ 48⟩
      okEnv).outcome ≠ .err e := by
  have hp : (add_leverage_token 1 c5FullLevGroup c5Accounts ⟨2 * 2 ^ 48⟩
      okEnv).outcome = .panic := by decide
  refine ⟨by decide, hp, ?_⟩
  intro e he
  rw [hp] at he
  cases he

/-- A fresh group and an AddBaseToken call whose admin account is not a
signer, for the C5 witness. -/
def c5Group : QuasarGroup :=
  ⟨⟨.quasarGroup, 0, true⟩, 5, 55, 9, 2, 0, [zeroBaseToken, zeroBaseToken],
    0, [zeroLeverageToken, zeroLeverageToken]⟩

/-- An AddBaseToken call with the right admin key but no admin signature. -/
def c5BadAdminAccounts : AddBaseTokenAccounts :=
  ⟨⟨7, 1, false, 0, .raw⟩, ⟨22, 0, false, 0, .mint ⟨6, true⟩⟩,
   ⟨34, 0, false, 0, .pyth ⟨100, -8⟩⟩, ⟨9, 0, false, 0, .raw⟩⟩

theorem c5_witness :
    ¬(c5BadAdminAccounts.admin.is_signer = true ∧
      c5BadAdminAccounts.admin.key = c5Group.admin_key) ∧
    ∃ e, add_base_token 1 c5Group c5BadAdminAccounts okEnv =
      ⟨.err e, c5Group, []⟩ :=
  ⟨by decide,
   (c5_admin_and_authority_gating 1 c5Group c5BadAdminAccounts c5Accounts
     ⟨2 * 2 ^ 48⟩ okEnv).1 (by decide)⟩

theorem mint_leverage_token_group_eq (program_id : Pubkey) (g : QuasarGroup)
    (a : MintLeverageTokenAccounts) (target_leverage : I80F48) (quantity : Nat)
    (env : Env) :
    (mint_leverage_token program_id g a target_leverage quantity env).group = g := by
  unfold mint_leverage_token
  repeat' split <;> try rfl

/-- C2 (amended): whenever a handler returns an error, the group record is
exactly as it was at entry — except for InitGroup's admin-co-signature check,
which runs only after `signer_nonce`, `signer_key` and `mango_program_id`
have been written, so that error path leaves exactly those three fields
updated (admin key, metadata and both registries still untouched). -/
theorem c2_handler_error_leaves_group (program_id : Pubkey) (g : QuasarGroup)
    (c : Call) (env : Env) (e : PErr)
    (h : (processCall program_id g c env).outcome = .err e) :
    (processCall program_id g c env).group = g ∨
    (∃ a nonce, c = Call.initQuasarGroup a nonce ∧ a.admin.is_signer = false ∧
      (processCall program_id g c env).group =
        { g with signer_nonce := nonce, signer_key := a.signer.key,
                 mango_program_id := a.mango_program.key }) := by
  cases c with
  | initQuasarGroup a nonce =>
    rcases init_quasar_group_cases program_id g a nonce env with
      hok | ⟨_, hg, _⟩ | ⟨hs, _, hg, _⟩
    · simp only [processCall] at h
      cases hok.symm.trans h
    · left; simpa [processCall] using hg
    · right; exact ⟨a, nonce, rfl, hs, by simpa [processCall] using hg⟩
  | addBaseToken a =>
    left
    simp only [processCall] at h ⊢
    rcases add_base_token_cases program_id g a env with
      ⟨_, _, _, _, _, _, hr⟩ | ⟨e', hr⟩ | hr
    · rw [hr] at h; cases h
    · rw [hr]
    · rw [hr] at h; cases h
  | addLeverageToken a tl =>
    left
    simp only [processCall] at h ⊢
    rcases add_leverage_token_cases program_id g a tl env with
      ⟨_, _, hok, _⟩ | ⟨_, hg⟩
    · cases hok.symm.trans h
    · exact hg
  | mintLeverageToken a tl q =>
    left
    exact mint_leverage_token_group_eq program_id g a tl q env
  | redeemLeverageToken q => left; rfl
  | testCreateAccount a =>
    left
    simp only [processCall]
    unfold test_create_account
    split <;> rfl

/-- A zeroed, not-yet-initialized group record. -/
def c2UninitGroup : QuasarGroup :=
  ⟨⟨.quasarGroup, 0, false⟩, 0, 0, 0, 0, 0, [zeroBaseToken],
    0, [zeroLeverageToken]⟩

/-- An InitGroup call whose derived-authority account matches the derivation
for nonce 5 but whose admin account has not signed. -/
def c2InitAccounts : InitGroupAccounts :=
  ⟨⟨7, 1, false, 99999999, .raw⟩,
   ⟨(gen_signer_key 5 7 1).getD 0, 0, false, 0, .raw⟩,
   ⟨9, 0, false, 0, .raw⟩, ⟨2, 0, false, 0, .raw⟩⟩

/-- C2 counterexample to the claim as stated: this InitGroup call returns an
error (admin did not co-sign), yet the group record differs from its entry
value — the signer fields and margin-module id were already written. -/
theorem c2_counterexample :
    (processCall 1 c2UninitGroup (Call.initQuasarGroup c2InitAccounts 5)
      okEnv).outcome = .err (.quasar .Default) ∧
    (processCall 1 c2UninitGroup (Call.initQuasarGroup c2InitAccounts 5)
      okEnv).group ≠ c2UninitGroup := by
  constructor
  · decide
  · decide

/-- A fresh initialized group for the C2 witness. -/
def c2Group : QuasarGroup :=
  ⟨⟨.quasarGroup, 0, true⟩, 5, 55, 9, 2, 0, [zeroBaseToken, zeroBaseToken],
    0, [zeroLeverageToken, zeroLeverageToken]⟩

/-- An AddBaseToken call without the admin signature, for the C2 witness. -/
def c2BadAdminAccounts : AddBaseTokenAccounts :=
  ⟨⟨7, 1, false, 0, .raw⟩, ⟨22, 0, false, 0, .mint ⟨6, true⟩⟩,
   ⟨34, 0, false, 0, .pyth ⟨100, -8⟩⟩, ⟨9, 0, false, 0, .raw⟩⟩

theorem c2_witness :
    (processCall 1 c2Group (Call.addBaseToken c2BadAdminAccounts)
      okEnv).outcome = .err (.quasar .InvalidSignerKey) ∧
    ((processCall 1 c2Group (Call.addBaseToken c2BadAdminAccounts)
        okEnv).group = c2Group ∨
     (∃ a nonce,
        Call.addBaseToken c2BadAdminAccounts = Call.initQuasarGroup a nonce ∧
        a.admin.is_signer = false ∧
        (processCall 1 c2Group (Call.addBaseToken c2BadAdminAccounts)
          okEnv).group =
          { c2Group with signer_nonce := nonce, signer_key := a.signer.key,
                         mango_program_id := a.mango_program.key })) :=
  ⟨by decide,
   c2_handler_error_leaves_group 1 c2Group (Call.addBaseToken c2BadAdminAccounts)
     okEnv (.quasar .InvalidSignerKey) (by decide)⟩

/-- The full guard sequence of `add_leverage_token` that precedes its two
cross-module invocations: group loading, admin co-signature and identity,
base-token existence, pair-duplicate rejection, empty slot at the allocation
index, and the derived-authority comparison. -/
def addLeverageTokenChecksPass (program_id : Pubkey) (g : QuasarGroup)
    (a : AddLeverageTokenAccounts) (target_leverage : I80F48) : Bool :=
  (quasar_group_load_checked g a.quasar_group program_id).isNone &&
  a.admin.is_signer && (a.admin.key == g.admin_key) &&
  (g.find_base_token_index a.base_token_mint.key).isSome &&
  (g.find_leverage_token_index a.base_token_mint.key target_leverage).isNone &&
  (match g.leverage_tokens[g.num_leverage_tokens]? with
   | some slot => slot.is_empty
   | none => false) &&
  (a.pda.key == g.signer_key)

/-- C1: when every pre-invocation check of AddLeverageToken passes and the
margin-module account-opening invocation fails, the handler returns exactly
that error with the group record (both registries included) unchanged; the
same holds when the margin invocation succeeds but the mint
create-and-initialize step fails.  The registry append is thus performed only
after both cross-module invocations have succeeded. -/
theorem c1_addLeverageToken_cpi_failure_atomic (program_id : Pubkey)
    (g : QuasarGroup) (a : AddLeverageTokenAccounts) (target_leverage : I80F48)
    (env : Env)
    (hchecks : addLeverageTokenChecksPass program_id g a target_leverage = true) :
    (∀ e, (init_mango_account env a.mango_program a.mango_group a.mango_account
        a.pda (CpiSeeds.derived a.quasar_group.key g.signer_nonce)).1 = some e →
      add_leverage_token program_id g a target_leverage env =
        ⟨.err e, g,
         (init_mango_account env a.mango_program a.mango_group a.mango_account
           a.pda (CpiSeeds.derived a.quasar_group.key g.signer_nonce)).2⟩) ∧
    (∀ e, (init_mango_account env a.mango_program a.mango_group a.mango_account
        a.pda (CpiSeeds.derived a.quasar_group.key g.signer_nonce)).1 = none →
      (create_and_initialize_mint_account env a.admin a.mint a.pda
        a.token_program a.system_program a.rent_program
        (CpiSeeds.derived a.quasar_group.key g.signer_nonce)
        LEVERGAE_TOKEN_DECIMALS).1 = some e →
      add_leverage_token program_id g a target_leverage env =
        ⟨.err e, g,
         (init_mango_account env a.mango_program a.mango_group a.mango_account
           a.pda (CpiSeeds.derived a.quasar_group.key g.signer_nonce)).2 ++
         (create_and_initialize_mint_account env a.admin a.mint a.pda
           a.token_program a.system_program a.rent_program
           (CpiSeeds.derived a.quasar_group.key g.signer_nonce)
           LEVERGAE_TOKEN_DECIMALS).2⟩) := by
  simp only [addLeverageTokenChecksPass, Bool.and_eq_true, beq_iff_eq] at hchecks
  obtain ⟨⟨⟨⟨⟨⟨hload, hsigner⟩, hkey⟩, hbase⟩, hlev⟩, hslot⟩, hpda⟩ := hchecks
  rw [Option.isNone_iff_eq_none] at hload hlev
  constructor
  · intro e hfail
    unfold add_leverage_token
    repeat' split <;> simp_all
  · intro e hok hfail
    unfold add_leverage_token
    repeat' split <;> simp_all

/-- A group with one registered base token and room for one leverage token,
whose stored signer key matches the supplied derived-authority account. -/
def c1Group : QuasarGroup :=
  ⟨⟨.quasarGroup, 0, true⟩, 5, 77, 9, 2, 1, [⟨11, 6, 21⟩],
    0, [zeroLeverageToken, zeroLeverageToken]⟩

/-- A fully valid AddLeverageToken call for `c1Group` (derived-authority
account key 77 matching the stored signer key). -/
def c1Accounts : AddLeverageTokenAccounts :=
  ⟨⟨7, 1, false, 0, .raw⟩, ⟨32, 0, false, 0, .raw⟩, ⟨11, 0, false, 0, .raw⟩,
   ⟨2, 0, false, 0, .raw⟩, ⟨41, 0, false, 0, .raw⟩, ⟨42, 0, false, 0, .raw⟩,
   ⟨43, 0, false, 0, .raw⟩, ⟨901, 0, false, 0, .raw⟩, ⟨902, 0, false, 0, .raw⟩,
   ⟨903, 0, false, 0, .raw⟩, ⟨9, 0, true, 0, .raw⟩, ⟨77, 0, false, 0, .raw⟩⟩

/-- An environment in which every cross-module invocation fails with
collaborator error 66. -/
def c1FailEnv : Env := ⟨fun _ _ => true, fun _ => some (.cpi 66)⟩

theorem c1_witness :
    addLeverageTokenChecksPass 1 c1Group c1Accounts ⟨2 ^ 48⟩ = true ∧
    add_leverage_token 1 c1Group c1Accounts ⟨2 ^ 48⟩ c1FailEnv =
      ⟨.err (.cpi 66), c1Group,
       (init_mango_account c1FailEnv c1Accounts.mango_program
         c1Accounts.mango_group c1Accounts.mango_account c1Accounts.pda
         (CpiSeeds.derived c1Accounts.quasar_group.key c1Group.signer_nonce)).2⟩ :=
  ⟨by decide,
   (c1_addLeverageToken_cpi_failure_atomic 1 c1Group c1Accounts ⟨2 ^ 48⟩
     c1FailEnv (by decide)).1 (.cpi 66) (by decide)⟩

/-- C8: for a Pyth price source, the adjustment exponent equals the feed's
reported exponent — the base-token decimals cancel out of
`(quote + expo) - quote` — and the mantissa is divided by `10^|expo|` when
the exponent is negative and multiplied by `10^expo` otherwise (the factor
is computed as a wrapped `u64` power and lifted into fixed point). -/
theorem c8_pyth_normalization_uses_feed_exponent (base_token : BaseToken)
    (oracle_ai : AccountInfo) (p : PythPriceData)
    (hdata : oracle_ai.data = .pyth p) (hdec : base_token.decimals ≤ 255)
    (hexpo : p.expo.natAbs ≤ 2 ^ 31 - 256) (hprice : p.price.natAbs < 2 ^ 63) :
    read_oracle base_token oracle_ai =
      (if p.expo < 0 then
        match I80F48.checkedDiv ⟨p.price * 2 ^ 48⟩
            ⟨(10 : Int) ^ p.expo.natAbs % 2 ^ 64 * 2 ^ 48⟩ with
        | some r => PriceResult.ok r
        | none => PriceResult.panic
      else
        match I80F48.checkedMul ⟨p.price * 2 ^ 48⟩
            ⟨(10 : Int) ^ p.expo.natAbs % 2 ^ 64 * 2 ^ 48⟩ with
        | some r => PriceResult.ok r
        | none => PriceResult.panic) := by
  have hdet : determine_oracle_type oracle_ai = .pyth := by
    unfold determine_oracle_type
    rw [hdata]
  have hpb : -(2 ^ 63 : Int) < p.price ∧ p.price < 2 ^ 63 := by omega
  have hval : I80F48.fromNum p.price = some ⟨p.price * 2 ^ 48⟩ := by
    unfold I80F48.fromNum I80F48.inRange
    rw [if_pos]
    constructor <;> nlinarith [hpb.1, hpb.2]
  have h1 : i32Checked ((base_token.decimals : Int) + p.expo) =
      some ((base_token.decimals : Int) + p.expo) := by
    unfold i32Checked
    rw [if_pos]
    omega
  have h2 : i32Checked ((base_token.decimals : Int) + p.expo -
      (base_token.decimals : Int)) = some p.expo := by
    unfold i32Checked
    rw [add_sub_cancel_left, if_pos]
    omega
  have ha0 : 0 ≤ (10 : Int) ^ p.expo.natAbs % 2 ^ 64 :=
    Int.emod_nonneg _ (by norm_num)
  have ha1 : (10 : Int) ^ p.expo.natAbs % 2 ^ 64 < 2 ^ 64 :=
    Int.emod_lt_of_pos _ (by norm_num)
  have hadj : I80F48.fromNum ((10 : Int) ^ p.expo.natAbs % 2 ^ 64) =
      some ⟨(10 : Int) ^ p.expo.natAbs % 2 ^ 64 * 2 ^ 48⟩ := by
    unfold I80F48.fromNum I80F48.inRange
    rw [if_pos]
    constructor <;> nlinarith
  unfold read_oracle
  simp only [hdet, hdata, hval, h1, h2, hadj]
  split
  · cases I80F48.checkedDiv ⟨p.price * 2 ^ 48⟩
      ⟨(10 : Int) ^ p.expo.natAbs % 2 ^ 64 * 2 ^ 48⟩ <;> rfl
  · cases I80F48.checkedMul ⟨p.price * 2 ^ 48⟩
      ⟨(10 : Int) ^ p.expo.natAbs % 2 ^ 64 * 2 ^ 48⟩ <;> rfl

/-- The worked example's base token: 6 decimals. -/
def c8BaseToken : BaseToken := ⟨11, 6, 33⟩

/-- The worked example's Pyth feed: mantissa 5,000,000,000 at exponent −8. -/
def c8PythData : PythPriceData := ⟨5000000000, -8⟩

/-- The worked example's price account. -/
def c8OracleAccount : AccountInfo := ⟨33, 0, false, 0, .pyth c8PythData⟩

theorem c8_witness :
    c8OracleAccount.data = .pyth c8PythData ∧
    c8BaseToken.decimals ≤ 255 ∧
    c8PythData.expo.natAbs ≤ 2 ^ 31 - 256 ∧
    c8PythData.price.natAbs < 2 ^ 63 ∧
    read_oracle c8BaseToken c8OracleAccount = .ok ⟨50 * 2 ^ 48⟩ := by
  refine ⟨rfl, by decide, by decide, by decide, ?_⟩
  rw [c8_pyth_normalization_uses_feed_exponent c8BaseToken c8OracleAccount
    c8PythData rfl (by decide) (by decide) (by decide)]
  decide

end Quasar
